import Mathlib

/-!
# Verification of `UPSmodules/UPSmodule.py` (Ricks-Lab/apcupsd ups-utils)

Shallow embedding of the UPS SNMP polling module.  External effects are made
explicit:

* the SNMP query is a parameter `fetch : String → Option String`, mapping an
  OID to the raw value text of the reply's value line (the substring after the
  first colon of the line matched by the `SNMP_VALUE` pattern, which lives in
  the external `env` module); `Option.none` models the
  `subprocess.CalledProcessError` path;
* Python exceptions are modelled by `Option.none` results of the embedded
  functions; a Python `None` *value* is the distinct `PyVal.pynone`;
* Python `float` results are modelled with exact rationals `ℚ` (the numbers
  involved are small decimal fractions, where IEEE rounding and `round`'s
  half-even tie-breaking agree with the rational computation);
* printing (`display=True`) is omitted: it only formats the values and does
  not change any result.
-/

namespace UpsModule

unseal Rat.mul Rat.inv Rat.add Rat.sub

/-- Python truthiness-relevant value universe for SNMP readings: the values
`UpsComm.send_snmp_command` can produce are `None`, `str`, `float`, and the
two-element minutes/string pair (`list` for eaton_pw, `tuple` for apc). -/
inductive PyVal where
  | pynone : PyVal
  | str (s : String) : PyVal
  | float (q : ℚ) : PyVal
  | timePair (minutes : ℚ) (text : String) : PyVal
deriving DecidableEq, Repr

/-- Python truthiness of a `PyVal`: `None` and empty strings and `0.0` are
falsy; a two-element list/tuple is always truthy. -/
def pyTruthy : PyVal → Bool
  | .pynone => false
  | .str s => !s.isEmpty
  | .float q => if q = 0 then false else true
  | .timePair _ _ => true

/-- Whether a `PyVal` is a Python `str` (used for the `re.sub` TypeError
check in the `mib_ups_info` post-processing). -/
def PyVal.isStr : PyVal → Bool
  | .str _ => true
  | _ => false

/-- Numeric view of a `PyVal` for Python arithmetic; non-numbers raise
`TypeError`, modelled as `Option.none`. -/
def pyNum : PyVal → Option ℚ
  | .float q => some q
  | _ => Option.none

/-- Association-list lookup on string keys (Python `dict` read; keys are
unique in all dicts built here). -/
def alookup {α : Type} (k : String) : List (String × α) → Option α
  | [] => Option.none
  | (k', v) :: rest => if k' = k then some v else alookup k rest

/-- Python `results[k] = v` on a dict represented as an insertion-ordered
association list: overwrite in place if the key exists, else append. -/
def dictInsert {α : Type} (l : List (String × α)) (k : String) (v : α) : List (String × α) :=
  if (alookup k l).isSome then
    l.map (fun p => if p.1 = k then (k, v) else p)
  else l ++ [(k, v)]

/-- Python `str.strip()` on a character list (leading and trailing
whitespace removed). -/
def pyStripChars (cs : List Char) : List Char :=
  ((cs.dropWhile Char.isWhitespace).reverse.dropWhile Char.isWhitespace).reverse

/-- Cleaning step `re.sub(r'\"', '', value).strip()` from `send_snmp_command`: drop every
double-quote character, then strip surrounding whitespace. -/
def cleanValue (s : String) : String :=
  String.mk (pyStripChars (s.data.filter (· ≠ '"')))

/-- Python `int(s)` on a string: strip whitespace, optional sign, decimal
digits; anything else raises `ValueError` (`Option.none`).  (Underscore
digit grouping, accepted by CPython, is not modelled; no input here uses
it.) -/
def pyDigits : List Char → Option ℕ
  | [] => Option.none
  | ds =>
    if ds.all Char.isDigit then
      some (ds.foldl (fun a c => a * 10 + (c.toNat - 48)) 0)
    else Option.none

/-- Python `int(s)` (see `pyDigits`). -/
def pyIntOfString (s : String) : Option ℤ :=
  match pyStripChars s.data with
  | '-' :: ds => (pyDigits ds).map (fun n => -(n : ℤ))
  | '+' :: ds => (pyDigits ds).map (fun n => (n : ℤ))
  | ds => (pyDigits ds).map (fun n => (n : ℤ))

/-- Round-half-to-even on rationals (the tie-breaking rule of Python
`round`). -/
def pyRoundHalfEven (q : ℚ) : ℤ :=
  let f := ⌊q⌋
  let r := q - (f : ℚ)
  if r < 1 / 2 then f
  else if r > 1 / 2 then f + 1
  else if f % 2 = 0 then f else f + 1

/-- Python `round(q, ndigits)` on our exact-rational model of floats. -/
def pyRound (q : ℚ) (ndigits : ℕ) : ℚ :=
  (pyRoundHalfEven (q * (10 ^ ndigits)) : ℚ) / (10 ^ ndigits)

/-- Zero-padded two-digit rendering of a minutes/seconds field. -/
def pad2 (n : ℕ) : String :=
  if n < 10 then "0" ++ toString n else toString n

/-- Python `str(datetime.timedelta(seconds=s))`: `H:MM:SS`, with a `D day(s), `
prefix when the normalized day count is nonzero. -/
def timedeltaStr (s : ℤ) : String :=
  let days := Int.fdiv s 86400
  let rem := (Int.emod s 86400).toNat
  let h := rem / 3600
  let m := (rem % 3600) / 60
  let sec := rem % 60
  let base := toString h ++ ":" ++ pad2 m ++ ":" ++ pad2 sec
  if days = 0 then base
  else if days = 1 ∨ days = -1 then toString days ++ " day, " ++ base
  else toString days ++ " days, " ++ base

/-- Worker for `pySplitChar`: `acc` is the reversed current chunk. -/
def splitCharAux (sep : Char) : List Char → List Char → List String
  | [], acc => [String.mk acc.reverse]
  | c :: rest, acc =>
    if c = sep then String.mk acc.reverse :: splitCharAux sep rest []
    else splitCharAux sep rest (c :: acc)

/-- Python `s.split(sep)` for a one-character separator: every occurrence
splits, empty chunks are kept (so `"1)2)".split(')') = ['1', '2', '']`). -/
def pySplitChar (sep : Char) (cs : List Char) : List String :=
  splitCharAux sep cs []

/-- Embedding of `UpsComm.bit_str_decoder` (UPSmodule.py lines 1070-1087), translated
bit-for-bit: iterate over the characters of `value` with their index; `break`
once the index exceeds `decode_key`'s length (note: strictly exceeds — the
source guard is `index > len(decode_key)`); on a `'1'` bit, append
`decode_key[index]`, dash-separated.  An out-of-range `decode_key[index]`
raises `IndexError`, modelled as `Option.none`. -/
def bitDecodeAux (decode_key : List String) : List Char → ℕ → String → Option String
  | [], _, acc => some acc
  | c :: rest, index, acc =>
    if index > decode_key.length then some acc
    else if c = '1' then
      match decode_key[index]? with
      | some label =>
        bitDecodeAux decode_key rest (index + 1)
          (if acc = "" then label else acc ++ "-" ++ label)
      | Option.none => Option.none
    else bitDecodeAux decode_key rest (index + 1) acc

/-- Entry point of `UpsComm.bit_str_decoder`. -/
def bit_str_decoder (value : String) (decode_key : List String) : Option String :=
  bitDecodeAux decode_key value.data 0 ""

/-- Table `UpsComm.decoders['apc_system_status']`: the decode-key tuple for the
APC system-status bit string (UPSmodule.py lines 606-620). -/
def apc_system_status_decoder : List String :=
  ["Abnormal", "OnBattery", "LowBattery", "OnLine", "ReplaceBattery",
   "SCE", "AVR_Boost", "AVR_Trim", "OverLoad", "RT_Calibration",
   "BatteriesDischarged", "ManualBypass", "SoftwareBypass", "Bypass-InternalFault",
   "Bypass-SupplyFailure", "Bypass-FanFailure", "SleepOnTimer", "SleepNoPower",
   "On", "Rebooting", "BatterCommLost", "ShutdownInitiated", "Boost/TrimFailure",
   "BadOutVoltage", "BatteryChargerFail", "HiBatTemp", "WarnBatTemp", "CritBatTemp",
   "SelfTestInProgress", "LowBat/OnBat", "ShutdownFromUpstream",
   "ShutdownFromDownstream", "NoBatteriesAttached", "SyncCmdsInProg",
   "SyncSleepInProg", "SyncRebootInProg", "InvDCimbalance", "TransferReadyFailure",
   "Shutdown/Unable to Transfer", "LowBatShutdown", "FanFail", "MainRelayFail",
   "BypassRelayFail", "TempBypass", "HighInternalTemp", "BatTempSensorFault",
   "InputOORforBypass", "DCbusOverV", "PFCfailure", "CritHWfail", "Green/ECO mode",
   "HotStandby", "EPO", "LoadAlarmViolation", "BypassPhaseFault",
   "UPSinternalComFail", "EffBoosterMode", "Off", "Standby", "Minor/EnvAlarm"]

/-- The `UpsComm.MIB_nmc` device families (the `all` member of the enum is a
filter value for counting, never a family of a concrete UPS item). -/
inductive UpsType where
  | apc_ap96xx : UpsType
  | eaton_pw : UpsType
deriving DecidableEq, Repr

/-- Name (`Enum.name`) of a `MIB_nmc` member. -/
def UpsType.name : UpsType → String
  | .apc_ap96xx => "apc_ap96xx"
  | .eaton_pw => "eaton_pw"

/-- One entry of `UpsComm.all_mib_cmds`: OID, human-readable name, and
optional categorical decode table. -/
structure MibCmdSpec where
  iso : String
  name : String
  decode : Option (List (String × String))
deriving DecidableEq, Repr

/-- Table `UpsComm.all_mib_cmds[MIB_nmc.apc_ap96xx]` (UPSmodule.py lines 625-729),
in declaration order.  Note the trailing space in the `mib_battery_replace `
key, present in the source. -/
def apc_mib_cmds : List (String × MibCmdSpec) :=
  [("mib_ups_info", ⟨"iso.3.6.1.2.1.1.1.0", "General UPS Information", Option.none⟩),
   ("mib_bios_serial_number", ⟨"iso.3.6.1.4.1.318.1.1.1.1.2.3.0", "UPS BIOS Serial Number", Option.none⟩),
   ("mib_firmware_revision", ⟨"iso.3.6.1.4.1.318.1.1.1.1.2.1.0", "UPS Firmware Revision", Option.none⟩),
   ("mib_ups_type", ⟨"iso.3.6.1.4.1.318.1.1.1.1.1.1.0", "UPS Model Type", Option.none⟩),
   ("mib_ups_model", ⟨"iso.3.6.1.4.1.318.1.1.1.1.2.5.0", "UPS Model Number", Option.none⟩),
   ("mib_ups_contact", ⟨"iso.3.6.1.2.1.1.4.0", "UPS Contact", Option.none⟩),
   ("mib_ups_env_temp", ⟨"iso.3.6.1.4.1.318.1.1.25.1.2.1.6.1.1", "UPS Environment Temp", Option.none⟩),
   ("mib_ups_location", ⟨"iso.3.6.1.2.1.1.6.0", "UPS Location", Option.none⟩),
   ("mib_ups_uptime", ⟨"iso.3.6.1.2.1.1.3.0", "UPS Up Time", Option.none⟩),
   ("mib_ups_manufacture_date", ⟨"iso.3.6.1.4.1.318.1.1.1.1.2.2.0", "UPS Manufacture Date", Option.none⟩),
   ("mib_ups_name", ⟨"iso.3.6.1.2.1.33.1.1.5.0", "UPS Name", Option.none⟩),
   ("mib_battery_capacity", ⟨"iso.3.6.1.4.1.318.1.1.1.2.2.1.0", "Percentage of Total Capacity", Option.none⟩),
   ("mib_battery_temperature", ⟨"iso.3.6.1.4.1.318.1.1.1.2.2.2.0", "Battery Temperature in C", Option.none⟩),
   ("mib_system_status", ⟨"iso.3.6.1.4.1.318.1.1.1.11.1.1.0", "UPS System Status", Option.none⟩),
   ("mib_battery_status", ⟨"iso.3.6.1.4.1.318.1.1.1.2.1.1.0", "Battery Status",
     some [("1", "Unknown"), ("2", "Battery Normal"), ("3", "Battery Low"),
           ("4", "Battery in Fault Condition")]⟩),
   ("mib_time_on_battery", ⟨"iso.3.6.1.4.1.318.1.1.1.2.1.2.0", "Time on Battery", Option.none⟩),
   ("mib_battery_runtime_remain", ⟨"iso.3.6.1.4.1.318.1.1.1.2.2.3.0", "Runtime Remaining", Option.none⟩),
   ("mib_battery_replace ", ⟨"iso.3.6.1.4.1.318.1.1.1.2.2.4.0", "Battery Replacement",
     some [("1", "OK"), ("2", "Replacement Required")]⟩),
   ("mib_input_voltage", ⟨"iso.3.6.1.4.1.318.1.1.1.3.2.1.0", "Input Voltage", Option.none⟩),
   ("mib_input_frequency", ⟨"iso.3.6.1.4.1.318.1.1.1.3.2.4.0", "Input Frequency Hz", Option.none⟩),
   ("mib_reason_for_last_transfer", ⟨"iso.3.6.1.4.1.318.1.1.1.3.2.5.0", "Last Transfer Event",
     some [("1", "No Transfer"), ("2", "High Line Voltage"), ("3", "Brownout"),
           ("4", "Loss of Main Power"), ("5", "Small Temp Power Drop"),
           ("6", "Large Temp Power Drop"), ("7", "Small Spike"),
           ("8", "Large Spike"), ("9", "UPS Self Test"),
           ("10", "Excessive Input V Fluctuation")]⟩),
   ("mib_output_voltage", ⟨"iso.3.6.1.4.1.318.1.1.1.4.2.1.0", "Output Voltage", Option.none⟩),
   ("mib_output_frequency", ⟨"iso.3.6.1.4.1.318.1.1.1.4.2.2.0", "Output Frequency Hz", Option.none⟩),
   ("mib_output_load", ⟨"iso.3.6.1.4.1.318.1.1.1.4.2.3.0", "Output Load as % of Capacity", Option.none⟩),
   ("mib_output_power", ⟨"iso.3.6.1.4.1.318.1.1.1.4.2.8.0", "Output Power in W", Option.none⟩),
   ("mib_output_current", ⟨"iso.3.6.1.4.1.318.1.1.1.4.2.4.0", "Output Current in Amps", Option.none⟩),
   ("mib_comms", ⟨"iso.3.6.1.4.1.318.1.1.1.8.1.0", "Communicating with UPS Device",
     some [("1", "Communication OK"), ("2", "Communication Error")]⟩),
   ("mib_last_self_test_result", ⟨"iso.3.6.1.4.1.318.1.1.1.7.2.3.0", "Last Self Test Results",
     some [("1", "OK"), ("2", "Failed"), ("3", "Invalid"), ("4", "In Progress")]⟩),
   ("mib_last_self_test_date", ⟨"iso.3.6.1.4.1.318.1.1.1.7.2.4.0", "Date of Last Self Test", Option.none⟩)]

/-- Table `UpsComm.all_mib_cmds[MIB_nmc.eaton_pw]` (UPSmodule.py lines 731-825),
in declaration order. -/
def eaton_mib_cmds : List (String × MibCmdSpec) :=
  [("mib_ups_info", ⟨"iso.3.6.1.2.1.1.1.0", "General UPS Information", Option.none⟩),
   ("mib_ups_manufacturer", ⟨"iso.3.6.1.4.1.935.10.1.1.1.1.0", "UPS Manufacturer", Option.none⟩),
   ("mib_firmware_revision", ⟨"iso.3.6.1.4.1.935.10.1.1.1.6.0", "UPS Firmware Revision", Option.none⟩),
   ("mib_ups_type", ⟨"iso.3.6.1.4.1.935.10.1.1.1.2.0", "UPS Model Type", Option.none⟩),
   ("mib_ups_contact", ⟨"iso.3.6.1.2.1.1.4.0", "UPS Contact", Option.none⟩),
   ("mib_ups_location", ⟨"iso.3.6.1.2.1.1.6.0", "UPS Location", Option.none⟩),
   ("mib_ups_uptime", ⟨"iso.3.6.1.2.1.1.3.0", "System Up Time", Option.none⟩),
   ("mib_ups_manufacture_date", ⟨"iso.3.6.1.4.1.318.1.1.1.1.2.2.0", "UPS Manufacture Date", Option.none⟩),
   ("mib_ups_name", ⟨"iso.3.6.1.2.1.33.1.1.5.0", "UPS Name", Option.none⟩),
   ("mib_battery_capacity", ⟨"iso.3.6.1.4.1.935.10.1.1.3.4.0", "Percentage of Total Capacity", Option.none⟩),
   ("mib_system_temperature", ⟨"iso.3.6.1.4.1.935.10.1.1.2.2.0", "System Temperature in C", Option.none⟩),
   ("mib_system_status", ⟨"iso.3.6.1.4.1.935.10.1.1.3.1.0", "UPS System Status",
     some [("1", "Power On"), ("2", "Standby"), ("3", "Bypass"), ("4", "Line"),
           ("5", "Battery"), ("6", "Battery Test"), ("7", "Fault"), ("8", "Converter"),
           ("9", "ECO"), ("10", "Shutdown"), ("11", "On Booster"), ("12", "On Reducer"),
           ("13", "Other")]⟩),
   ("mib_battery_status", ⟨"iso.3.6.1.4.1.935.10.1.1.3.1.0", "Battery Status",
     some [("1", "Unknown"), ("2", "Battery Normal"), ("3", "Battery Low"),
           ("4", "Battery Depleted"), ("5", "Battery Discharging"),
           ("6", "Battery Failure")]⟩),
   ("mib_time_on_battery", ⟨"iso.3.6.1.4.1.935.10.1.1.3.2.0", "Time on Battery", Option.none⟩),
   ("mib_battery_runtime_remain", ⟨"iso.3.6.1.4.1.935.10.1.1.3.3.0", "Runtime Remaining", Option.none⟩),
   ("mib_input_voltage", ⟨"iso.3.6.1.4.1.935.10.1.1.2.16.1.3.1", "Input Voltage V", Option.none⟩),
   ("mib_input_frequency", ⟨"iso.3.6.1.4.1.935.10.1.1.2.16.1.2.1", "Input Frequency Hz", Option.none⟩),
   ("mib_output_voltage", ⟨"iso.3.6.1.4.1.935.10.1.1.2.18.1.3.1", "Output Voltage", Option.none⟩),
   ("mib_output_frequency", ⟨"iso.3.6.1.4.1.935.10.1.1.2.18.1.2.1", "Output Frequency Hz", Option.none⟩),
   ("mib_output_load", ⟨"iso.3.6.1.4.1.935.10.1.1.2.18.1.7.1", "Output Load as % of Capacity", Option.none⟩),
   ("mib_output_current", ⟨"iso.3.6.1.4.1.935.10.1.1.2.18.1.4.1", "Output Current in Amps", Option.none⟩),
   ("mib_output_power", ⟨"iso.3.6.1.4.1.935.10.1.1.2.18.1.5.1", "Output Power in W", Option.none⟩),
   ("mib_last_self_test_result", ⟨"iso.3.6.1.4.1.935.10.1.1.7.3.0", "Last Self Test Results",
     some [("1", "Idle"), ("2", "Processing"), ("3", "No Failure"),
           ("4", "Failure/Warning"), ("5", "Not Possible"), ("6", "Test Cancel")]⟩),
   ("mib_last_self_test_date", ⟨"iso.3.6.1.4.1.935.10.1.1.7.4.0", "Date of Last Self Test", Option.none⟩)]

/-- Registry `UpsComm.all_mib_cmds` keyed by family. -/
def all_mib_cmds : UpsType → List (String × MibCmdSpec)
  | .apc_ap96xx => apc_mib_cmds
  | .eaton_pw => eaton_mib_cmds

/-- Enum `UpsComm.MIB_group` (UPSmodule.py line 840). -/
inductive MibGroup where
  | all | all_apc | all_eaton | monitor | static | dynamic | input | output
deriving DecidableEq, Repr

/-- Group `UpsComm._mib_static`. -/
def mib_static : List String :=
  ["mib_ups_name", "mib_ups_info", "mib_bios_serial_number", "mib_firmware_revision",
   "mib_ups_type", "mib_ups_location", "mib_ups_uptime"]

/-- Group `UpsComm._mib_dynamic`. -/
def mib_dynamic : List String :=
  ["mib_ups_env_temp", "mib_battery_capacity", "mib_time_on_battery",
   "mib_battery_runtime_remain", "mib_input_voltage", "mib_input_frequency",
   "mib_output_voltage", "mib_output_frequency", "mib_output_load",
   "mib_output_current", "mib_output_power", "mib_system_status",
   "mib_battery_status"]

/-- Group `UpsComm._mib_output`. -/
def mib_output : List String :=
  ["mib_output_voltage", "mib_output_frequency", "mib_output_load",
   "mib_output_current", "mib_output_power"]

/-- Group `UpsComm._mib_input`. -/
def mib_input : List String := ["mib_input_voltage", "mib_input_frequency"]

/-- Map `UpsComm.all_mib_cmd_names` (UPSmodule.py lines 841-849).  The source
comment on the `all` entry reads: "I choose all to be apc since eaton is a
subset of apc." -/
def all_mib_cmd_names : MibGroup → List String
  | .all => apc_mib_cmds.map Prod.fst
  | .all_apc => apc_mib_cmds.map Prod.fst
  | .all_eaton => eaton_mib_cmds.map Prod.fst
  | .monitor => mib_dynamic ++ mib_static
  | .output => mib_output
  | .input => mib_input
  | .static => mib_static
  | .dynamic => mib_dynamic

/-- The runtime state of one `UpsItem` that `send_snmp_command` and
`read_ups_list_items` consult: identity fields from `prm`, the family, the
responsiveness flag, and the cached NMC model string (mutable — it is
rewritten by a successful `mib_ups_info` read in a batch). -/
structure UpsItem where
  uuid : String
  display_name : String
  ups_IP : String
  ups_type : UpsType
  ups_nmc_model : String
  responsive : Bool
deriving DecidableEq, Repr

/-- The eaton_pw command names whose integer reply is scaled ×10 and divided
by `10.0` in `send_snmp_command` (the elif chain at UPSmodule.py lines
1033-1041, every branch of which performs the same `int(value) / 10.0`). -/
def eaton_scaled_cmds : List String :=
  ["mib_output_voltage", "mib_output_frequency", "mib_output_current",
   "mib_input_voltage", "mib_input_frequency", "mib_system_temperature"]

/-- Categorical decode step (UPSmodule.py lines 1030-1032): if the command
carries a decode table and the value is one of its keys, replace the value
with the mapped label; otherwise the value passes through unchanged. -/
def applyDecodeTable (decode : Option (List (String × String))) (value : String) : String :=
  match decode with
  | some tbl =>
    match alookup value tbl with
    | some label => label
    | Option.none => value
  | Option.none => value

/-- The duration decode for the apc family (UPSmodule.py lines 1058-1062):
remove `(` characters, split on `)`; when that yields at least two parts,
unpack into minute/string (a `ValueError` — `Option.none` — when there are
more than two), else keep the defaults `value_minute = -1`,
`value_str = 'UNK'`; finally build the pair
`(round(int(value_minute) / 60 / 60, 2), value_str)`. -/
def apcDurationDecode (value : String) : Option PyVal :=
  let value_items := pySplitChar ')' (value.data.filter (· ≠ '('))
  if value_items.length ≥ 2 then
    match value_items with
    | [value_minute, value_str] =>
      match pyIntOfString value_minute with
      | some n => some (.timePair (pyRound ((n : ℚ) / 60 / 60) 2) value_str)
      | Option.none => Option.none
    | _ => Option.none
  else some (.timePair (pyRound ((-1 : ℚ) / 60 / 60) 2) "UNK")

/-- The duration decode for the eaton_pw family (UPSmodule.py lines
1046-1056): parse the integer (seconds for `mib_time_on_battery`, minutes
for `mib_battery_runtime_remain`), format the `H:MM:SS` string with
`datetime.timedelta`, and pair it with `round(seconds / 60.0, 2)` minutes. -/
def eatonDurationDecode (command_name : String) (value : String) : Option PyVal :=
  match pyIntOfString value with
  | some n =>
    let secs := if command_name = "mib_time_on_battery" then n else n * 60
    some (.timePair (pyRound ((secs : ℚ) / 60) 2) (timedeltaStr secs))
  | Option.none => Option.none

/-- Embedding of `UpsComm.send_snmp_command` (UPSmodule.py lines 994-1068), with the
external `snmpget` call abstracted into `fetch : String → Option String`
(OID ↦ raw value text of the reply's value line; `Option.none` models
`subprocess.CalledProcessError`, on which the source returns Python `None`).
An `Option.none` result of this function models an uncaught exception
(`ValueError` from `int`, `IndexError` from the bit decoder). -/
def send_snmp_command (fetch : String → Option String) (ups : UpsItem)
    (command_name : String) : Option PyVal :=
  if ups.responsive = false then some (.str "Invalid UPS")
  else
    match alookup command_name (all_mib_cmds ups.ups_type) with
    | Option.none => some (.str "No data")
    | some spec =>
      if command_name = "mib_ups_env_temp" ∧ ups.ups_nmc_model ≠ "AP9641" then
        some (.str "No data")
      else
        match fetch spec.iso with
        | Option.none => some .pynone
        | some raw =>
          let value := applyDecodeTable spec.decode (cleanValue raw)
          if ups.ups_type = .eaton_pw ∧ command_name ∈ eaton_scaled_cmds then
            (pyIntOfString value).map (fun n => PyVal.float ((n : ℚ) / 10))
          else if command_name = "mib_system_status" ∧ ups.ups_type = .apc_ap96xx then
            (bit_str_decoder value apc_system_status_decoder).map PyVal.str
          else if command_name = "mib_time_on_battery" ∨
                  command_name = "mib_battery_runtime_remain" then
            if ups.ups_type = .eaton_pw then eatonDurationDecode command_name value
            else apcDurationDecode value
          else some (.str value)

/-- The result dict of `UpsComm.read_ups_list_items`: the seven metadata
keys installed up front (UPSmodule.py lines 966-972) and then one entry per
command read, in read order.  The source keeps all of these in a single
Python dict; this split model is only used for command names distinct from
the seven metadata keys (which the theorems assume where it matters). -/
structure BatchResult where
  valid : Bool
  display_name : String
  name : String
  uuid : String
  ups_IP : String
  ups_nmc_model : String
  ups_type : UpsType
  entries : List (String × PyVal)
deriving DecidableEq, Repr

/-- The metadata keys of the batch-result dict. -/
def batchMetaKeys : List String :=
  ["valid", "display_name", "name", "uuid", "ups_IP", "ups_nmc_model", "ups_type"]

/-- The batch-result dict as initialized at the top of
`read_ups_list_items` (UPSmodule.py lines 966-972), before any command is
read. -/
def initBatch (ups : UpsItem) : BatchResult :=
  { valid := true, display_name := ups.display_name, name := ups.display_name,
    uuid := ups.uuid, ups_IP := ups.ups_IP, ups_nmc_model := ups.ups_nmc_model,
    ups_type := ups.ups_type, entries := [] }

/-- Token extraction `re.sub(r'.*MN:', '', s).split()[0]`: drop everything up to and
including the last occurrence of `MN:` (greedy `.*`), split on whitespace
runs, and take the first token; `Option.none` models the `IndexError` when
no token remains. -/
def mnToken (s : String) : Option String :=
  let t := ((s.splitOn "MN:").getLastD "").data
  ((t.splitOnP Char.isWhitespace).map String.mk).find? (fun w => w ≠ "")

/-- The update of the cached `ups.prm['ups_nmc_model']` performed by the
`mib_ups_info` branch of the batch loop (UPSmodule.py lines 978-986): only
the apc family with a parsable `MN:` token writes back into the item. -/
def upsAfterCmd (ups : UpsItem) (cmd : String) (v : PyVal) : UpsItem :=
  if cmd = "mib_ups_info" ∧ ups.ups_type = .apc_ap96xx then
    match v with
    | .str s =>
      match mnToken s with
      | some tok => { ups with ups_nmc_model := tok }
      | Option.none => ups
    | _ => ups
  else ups

/-- The update of the result dict's `ups_nmc_model` entry performed by the
`mib_ups_info` branch of the batch loop: the apc family stores the `MN:`
token (falling back to the family name on `IndexError`), any other family
stores the family name. -/
def accAfterCmd (ups : UpsItem) (acc : BatchResult) (cmd : String) (v : PyVal) : BatchResult :=
  if cmd = "mib_ups_info" then
    if ups.ups_type = .apc_ap96xx then
      match v with
      | .str s =>
        match mnToken s with
        | some tok => { acc with ups_nmc_model := tok }
        | Option.none => { acc with ups_nmc_model := ups.ups_type.name }
      | _ => acc
    else { acc with ups_nmc_model := ups.ups_type.name }
  else acc

/-- The command loop of `UpsComm.read_ups_list_items` (UPSmodule.py lines
973-986): read each command in order, store its result, and on the first
falsy result set `valid` to `False` and `break`; a truthy `mib_ups_info`
result additionally updates the NMC model caches (on a non-string value the
`re.sub` there would raise `TypeError`, modelled as `Option.none`; that case
is unreachable because `mib_ups_info` always decodes to a string). -/
def batchLoop (fetch : String → Option String) :
    List String → UpsItem → BatchResult → Option BatchResult
  | [], _, acc => some acc
  | cmd :: rest, ups, acc =>
    match send_snmp_command fetch ups cmd with
    | Option.none => Option.none
    | some v =>
      let acc' := { acc with entries := dictInsert acc.entries cmd v }
      if pyTruthy v = false then some { acc' with valid := false }
      else if cmd = "mib_ups_info" ∧ ups.ups_type = .apc_ap96xx ∧ v.isStr = false then
        Option.none
      else batchLoop fetch rest (upsAfterCmd ups cmd v) (accAfterCmd ups acc' cmd v)

/-- The output-current correction formula for the eaton_pw family
(UPSmodule.py lines 990-991). -/
def eatonCurrentCorrection (voltage current : ℚ) : ℚ :=
  pyRound ((230 / voltage) * current) 1

/-- Embedding of `UpsComm.read_ups_list_items` (UPSmodule.py lines 958-992): metadata,
the command loop, then — for the eaton_pw family, whenever both
`mib_output_current` and `mib_output_voltage` are present in the result —
the in-place output-current correction
`round((230 / voltage) * current, 1)`.  Non-numeric stored values there
raise `TypeError` and a zero voltage raises `ZeroDivisionError`, both
modelled as `Option.none`. -/
def read_ups_list_items (fetch : String → Option String) (command_list : List String)
    (ups : UpsItem) : Option BatchResult :=
  match batchLoop fetch command_list ups (initBatch ups) with
  | Option.none => Option.none
  | some r =>
    if ups.ups_type = .eaton_pw then
      match alookup "mib_output_current" r.entries, alookup "mib_output_voltage" r.entries with
      | some cv, some vv =>
        match pyNum cv, pyNum vv with
        | some c, some v =>
          if v = 0 then Option.none
          else
            let corrected := dictInsert r.entries "mib_output_current"
              (PyVal.float (eatonCurrentCorrection v c))
            some { r with entries := corrected }
        | _, _ => Option.none
      | _, _ => some r
    else some r

/-- Embedding of `UpsList.read_all_ups_list_items` (UPSmodule.py lines 491-506),
translated with its control flow intact: the `return results` statement sits
*inside* the `for` loop, so the function returns during the first iteration
whose UPS is not skipped; if every UPS is skipped (or the list is empty) the
loop completes and Python returns `None`.  The outer `Option` models an
exception escaping from `read_ups_list_items`; the inner one is the
function's own `dict`-or-`None` result. -/
def read_all_ups_list_items (fetch : String → Option String) (command_list : List String)
    (errups : Bool) : List (String × UpsItem) → Option (Option (List (String × BatchResult)))
  | [] => some Option.none
  | (uuid, ups) :: rest =>
    if errups = false ∧ ups.responsive = false then
      read_all_ups_list_items fetch command_list errups rest
    else
      match read_ups_list_items fetch command_list ups with
      | Option.none => Option.none
      | some r => some (some [(uuid, r)])

/-- One crit/warn/limit threshold tuple of `UpsDaemon.daemon_params`. -/
structure ThresholdSpec where
  crit : ℤ
  warn : ℤ
  limit : ℤ
deriving DecidableEq, Repr

/-- Defaults `UpsDaemon.daemon_param_defaults` restricted to the four threshold
parameters (UPSmodule.py lines 216-219); `read_interval` is handled by a
separate monitor/daemon check and is not a `ThresholdSpec`. -/
def daemon_param_defaults_threshold (name : String) : Option ThresholdSpec :=
  if name = "threshold_battery_time_rem" then some ⟨5, 10, 4⟩
  else if name = "threshold_time_on_battery" then some ⟨5, 3, 1⟩
  else if name = "threshold_battery_load" then some ⟨90, 80, 10⟩
  else if name = "threshold_battery_capacity" then some ⟨10, 50, 5⟩
  else Option.none

/-- The value-check phase of `UpsDaemon.set_daemon_parameters` for one
threshold parameter (UPSmodule.py lines 323-353): the parameter's polarity
is read off the *default* crit/warn ordering; `reset` is raised when the
loaded crit/warn violate that ordering or drop below `limit`, in which case
the whole tuple silently reverts to the built-in defaults `d`. -/
def checkThresholdParam (d p : ThresholdSpec) : ThresholdSpec :=
  let reset :=
    if d.crit > d.warn then
      decide (p.crit ≤ p.warn) || decide (p.crit < p.limit) || decide (p.warn < p.limit)
    else
      decide (p.crit ≥ p.warn) || decide (p.crit < p.limit) || decide (p.warn < p.limit)
  if reset then d else p

/-- The loading of one threshold parameter by
`UpsDaemon.set_daemon_parameters` (UPSmodule.py lines 296-311 and 313-354).
The INI text parsing is guarded by `env.UT_CONST.PATTERNS['INI']` (the
external `env` module, outside this repository's core file), so the
configured input is modelled post-parse: `some (crit, warn)` when the INI
line matched the pattern and supplied two integers (the `limit` field always
keeps its default — the config loop only assigns `params[0]` and
`params[1]`), `Option.none` when the format was rejected and the defaults
were kept.  The check phase then runs in either case. -/
def loadThresholdParam (d : ThresholdSpec) (cfg : Option (ℤ × ℤ)) : ThresholdSpec :=
  let p := match cfg with
    | some (c, w) => { crit := c, warn := w, limit := d.limit }
    | Option.none => d
  checkThresholdParam d p

/-- Embedding of `UpsItem.mib_command_names` (UPSmodule.py lines 138-146): the `all`
group is first resolved to the item's own family's full set, then the item's
registered commands are filtered by group membership. -/
def mib_command_names (ups : UpsItem) (cmd_group : MibGroup) : List String :=
  let g := if cmd_group = MibGroup.all then
             (if ups.ups_type = .apc_ap96xx then MibGroup.all_apc else MibGroup.all_eaton)
           else cmd_group
  ((all_mib_cmds ups.ups_type).map Prod.fst).filter (· ∈ all_mib_cmd_names g)

/-! ### Concrete fixtures used by the witnesses and counterexamples -/

/-- A responsive apc_ap96xx session. -/
def upsApcStd : UpsItem :=
  ⟨"uuid-apc-1", "MainUPS", "192.168.1.6", .apc_ap96xx, "apc_ap96xx", true⟩

/-- A responsive eaton_pw session. -/
def upsEatonStd : UpsItem :=
  ⟨"uuid-eaton-1", "EatonUPS", "192.168.1.5", .eaton_pw, "eaton_pw", true⟩

/-- An SNMP oracle for the eaton_pw current-correction scenario: output
voltage replies `1100` (scaled ×10 for 110 V) and output current replies
`100` (scaled ×10 for 10.0 A). -/
def fetchEaton110 : String → Option String := fun oid =>
  if oid = "iso.3.6.1.4.1.935.10.1.1.2.18.1.3.1" then some "1100"
  else if oid = "iso.3.6.1.4.1.935.10.1.1.2.18.1.4.1" then some "100"
  else Option.none

/-- An SNMP oracle where the eaton_pw output voltage reads fine but the
output-current query fails (`snmpget` non-zero exit). -/
def fetchEatonCurrentFail : String → Option String := fun oid =>
  if oid = "iso.3.6.1.4.1.935.10.1.1.2.18.1.3.1" then some "1100"
  else Option.none

/-- An SNMP oracle where only the UPS-name OID answers (shared by apc and
eaton tables); every other query fails. -/
def fetchNameOnly : String → Option String := fun oid =>
  if oid = "iso.3.6.1.2.1.33.1.1.5.0" then some "MyUPS" else Option.none

/-! ### Helper lemmas -/

/-- Characters of the cleaned SNMP value are characters of the raw value:
`cleanValue` only drops characters. -/
theorem mem_of_mem_cleanValue {c : Char} {s : String} (h : c ∈ (cleanValue s).data) :
    c ∈ s.data := by
  have h1 : c ∈ (((s.data.filter (· ≠ '"')).dropWhile
      Char.isWhitespace).reverse.dropWhile Char.isWhitespace).reverse := h
  rw [List.mem_reverse] at h1
  have h2 := (List.dropWhile_sublist Char.isWhitespace).subset h1
  rw [List.mem_reverse] at h2
  have h3 := (List.dropWhile_sublist Char.isWhitespace).subset h2
  exact List.mem_of_mem_filter h3

/-- The bit decoder returns its accumulator unchanged over a bit string
containing no `'1'` characters. -/
theorem bitDecodeAux_no_ones (key : List String) (chars : List Char) (i : ℕ) (acc : String)
    (h : ∀ c ∈ chars, c ≠ '1') : bitDecodeAux key chars i acc = some acc := by
  induction chars generalizing i with
  | nil => rfl
  | cons c rest ih =>
    have hc : c ≠ '1' := h c (List.mem_cons_self c rest)
    simp only [bitDecodeAux, hc, if_false]
    split
    · rfl
    · exact ih (i + 1) (fun d hd => h d (List.mem_cons_of_mem c hd))

/-- The function `accAfterCmd` never touches the `entries` field of the result dict. -/
theorem accAfterCmd_entries (ups : UpsItem) (acc : BatchResult) (cmd : String) (v : PyVal) :
    (accAfterCmd ups acc cmd v).entries = acc.entries := by
  unfold accAfterCmd
  split
  · split
    · split <;> first | rfl | (split <;> rfl)
    · rfl
  · rfl

/-- The function `accAfterCmd` never touches the `valid` field of the result dict. -/
theorem accAfterCmd_valid (ups : UpsItem) (acc : BatchResult) (cmd : String) (v : PyVal) :
    (accAfterCmd ups acc cmd v).valid = acc.valid := by
  unfold accAfterCmd
  split
  · split
    · split <;> first | rfl | (split <;> rfl)
    · rfl
  · rfl

/-- One step of the batch loop on a falsy reading: the entry is stored, the
batch is marked invalid, and the loop `break`s — the remaining commands are
never read. -/
theorem batchLoop_break (fetch : String → Option String) (ups : UpsItem) (cmd : String)
    (rest : List String) (acc : BatchResult) (v : PyVal)
    (hs : send_snmp_command fetch ups cmd = some v) (hf : pyTruthy v = false) :
    batchLoop fetch (cmd :: rest) ups acc =
      some { acc with entries := dictInsert acc.entries cmd v, valid := false } := by
  simp only [batchLoop, hs, hf, if_pos]

/-- Existential form of `batchLoop_break`, exposing the fields of the
returned record that the claims need. -/
theorem batchLoop_break_exists (fetch : String → Option String) (ups : UpsItem) (cmd : String)
    (rest : List String) (acc : BatchResult) (v : PyVal)
    (hs : send_snmp_command fetch ups cmd = some v) (hf : pyTruthy v = false) :
    ∃ r, batchLoop fetch (cmd :: rest) ups acc = some r ∧ r.valid = false ∧
      r.entries = dictInsert acc.entries cmd v :=
  ⟨_, batchLoop_break fetch ups cmd rest acc v hs hf, rfl, rfl⟩

/-- One step of the batch loop on a truthy reading: the entry is stored and
the loop continues on the updated session/result states.  The `v.isStr`
premise rules out the unreachable `TypeError` branch of the `mib_ups_info`
post-processing. -/
theorem batchLoop_cont (fetch : String → Option String) (ups : UpsItem) (cmd : String)
    (rest : List String) (acc : BatchResult) (v : PyVal)
    (hs : send_snmp_command fetch ups cmd = some v) (ht : pyTruthy v = true)
    (hstr : cmd = "mib_ups_info" → ups.ups_type = .apc_ap96xx → v.isStr = true) :
    batchLoop fetch (cmd :: rest) ups acc =
      batchLoop fetch rest (upsAfterCmd ups cmd v)
        (accAfterCmd ups { acc with entries := dictInsert acc.entries cmd v } cmd v) := by
  simp only [batchLoop, hs, ht]
  have hguard : ¬ (cmd = "mib_ups_info" ∧ ups.ups_type = .apc_ap96xx ∧ v.isStr = false) := by
    rintro ⟨h1, h2, h3⟩
    rw [hstr h1 h2] at h3
    cases h3
  simp [hguard]

/-- Evaluation of a `mib_ups_info` read on a responsive session: both
families give it the same OID and no decode table, and none of the scaling /
bit-field / duration branches applies to it, so the result is `None` on a
failed query and the cleaned reply string otherwise. -/
theorem send_info_eval (fetch : String → Option String) (ups : UpsItem)
    (hr : ups.responsive = true) :
    send_snmp_command fetch ups "mib_ups_info" =
      match fetch "iso.3.6.1.2.1.1.1.0" with
      | Option.none => some PyVal.pynone
      | some raw => some (.str (cleanValue raw)) := by
  unfold send_snmp_command
  rw [hr]
  cases ht : ups.ups_type <;> rfl

/-- A `mib_ups_info` read can only produce Python `None` (failed query) or a
string. -/
theorem send_info_shape (fetch : String → Option String) (ups : UpsItem) (v : PyVal)
    (h : send_snmp_command fetch ups "mib_ups_info" = some v) :
    v = PyVal.pynone ∨ v.isStr = true := by
  by_cases hr : ups.responsive = true
  · rw [send_info_eval fetch ups hr] at h
    rcases hf : fetch "iso.3.6.1.2.1.1.1.0" with _ | raw <;> rw [hf] at h <;>
      injection h with h <;> subst h
    · left; rfl
    · right; rfl
  · have hr' : ups.responsive = false := by
      cases hx : ups.responsive
      · rfl
      · exact absurd hx hr
    unfold send_snmp_command at h
    rw [hr'] at h
    have h3 : some (PyVal.str "Invalid UPS") = some v := h
    injection h3 with h4
    subst h4
    right; rfl

/-! ### Claim theorems -/

/-- C1: evaluation of `read_all_ups_list_items` at a collection of two
responsive UPSs (and at the empty collection).  The `return results`
statement of the source sits inside the `for` loop, so with two responsive
devices and `errups=True` the returned map holds only the first device's
batch result — the second device is never read — and with an empty
collection the function returns `None` instead of an empty map.  This
contradicts the claim (one batch-result entry per device) and the source's
own docstring ("results from the reading of all commands from all UPSs"). -/
theorem c1_read_all_returns_first_ups_only :
    upsApcStd.responsive = true ∧ upsEatonStd.responsive = true ∧
    (read_all_ups_list_items (fun _ => some "X") ["mib_ups_name"] true
        [("u1", upsApcStd), ("u2", upsEatonStd)]).map (Option.map (List.map Prod.fst)) =
      some (some ["u1"]) ∧
    read_all_ups_list_items (fun _ => some "X") ["mib_ups_name"] true [] =
      some Option.none := by
  decide

/-- C2: the claim's positive example holds (`"1010"` with keys
`("A","B","C","D")` decodes to `"A-C"`), but the bounds guard of
`bit_str_decoder` is `index > len(decode_key)` instead of `>=`, so a `'1'`
bit at index exactly `len(decode_key)` evaluates `decode_key[index]` and
raises `IndexError` (modelled by `Option.none`): the decoder does index past
the end of the key table. -/
theorem c2_bit_decoder_index_error :
    bit_str_decoder "1010" ["A", "B", "C", "D"] = some "A-C" ∧
    bit_str_decoder "00001" ["A", "B", "C", "D"] = Option.none := by
  decide

/-- C3: counterexample to the claimed numeric component.  Decoding the
eaton_pw time-on-battery raw value `"125"` yields the pair
`(2.08, "0:02:05")` — the code computes `round(125 / 60.0, 2)` *minutes* —
not the claimed `≈ 0.03`. -/
theorem c3_counterexample :
    send_snmp_command (fun _ => some "125") upsEatonStd "mib_time_on_battery" =
      some (.timePair (52 / 25) "0:02:05") ∧
    ¬ ((52 : ℚ) / 25 = 3 / 100) ∧ (3 : ℚ) / 100 < 52 / 25 := by
  decide

/-- C3 (amended): for the eaton_pw family, decoding time-on-battery raw
`"125"` (seconds) produces `(round(125 / 60, 2), str(timedelta(seconds=125)))
= (2.08, "0:02:05")`: the numeric component is minutes, 2.08, and the string
is the `H:MM:SS` rendering of 2 minutes 5 seconds. -/
theorem c3_eaton_time_on_battery_minutes :
    send_snmp_command (fun _ => some "125") upsEatonStd "mib_time_on_battery" =
      some (.timePair (pyRound ((125 : ℚ) / 60) 2) (timedeltaStr 125)) ∧
    pyRound ((125 : ℚ) / 60) 2 = 52 / 25 ∧ timedeltaStr 125 = "0:02:05" := by
  decide

/-- C4: the command group `all` does resolve to the apc_ap96xx full command
set, but that set is not a superset of the eaton_pw one:
`mib_ups_manufacturer` and `mib_system_temperature` are registered for
eaton_pw and absent from apc_ap96xx, contradicting the source comment
"eaton is a subset of apc" and the claim. -/
theorem c4_eaton_not_subset_of_apc :
    all_mib_cmd_names MibGroup.all = apc_mib_cmds.map Prod.fst ∧
    "mib_ups_manufacturer" ∈ eaton_mib_cmds.map Prod.fst ∧
    "mib_ups_manufacturer" ∉ all_mib_cmd_names MibGroup.all ∧
    "mib_system_temperature" ∈ eaton_mib_cmds.map Prod.fst ∧
    "mib_system_temperature" ∉ all_mib_cmd_names MibGroup.all := by
  decide

/-- C5: counterexample.  When the parenthesized split yields *three* parts
(raw payload `"1)2)"`: `split(')')` gives `['1','2','']`), the source guard
`len(value_items) >= 2` admits it and the two-target unpacking raises
`ValueError` — the read fails instead of defaulting the numeric component,
so "still returns a pair (the read does not fail) for every such raw
payload" is false. -/
theorem c5_counterexample :
    send_snmp_command (fun _ => some "1)2)") upsApcStd "mib_time_on_battery" =
      Option.none := by
  decide

/-- C5 (amended): for the apc family's duration payloads, whenever the
parenthesized split yields exactly *one* part (the only way a split can
yield fewer than two), the internal numeric default keeps the sentinel `-1`
and the read does not fail: it returns the pair
`(round(-1 / 60 / 60, 2), 'UNK')`, whose numeric component is `-0.0` (zero),
not `-1` itself.  (When the split yields three or more parts the read fails
with `ValueError` — see the counterexample.) -/
theorem c5_single_part_split_defaults (raw : String)
    (h : (pySplitChar ')' ((cleanValue raw).data.filter (· ≠ '('))).length = 1) :
    send_snmp_command (fun _ => some raw) upsApcStd "mib_time_on_battery" =
      some (.timePair (pyRound ((-1 : ℚ) / 60 / 60) 2) "UNK") ∧
    pyRound ((-1 : ℚ) / 60 / 60) 2 = 0 := by
  constructor
  · have he : send_snmp_command (fun _ => some raw) upsApcStd "mib_time_on_battery" =
        apcDurationDecode (cleanValue raw) := rfl
    rw [he]
    unfold apcDurationDecode
    have hlt : ¬ (pySplitChar ')' ((cleanValue raw).data.filter (· ≠ '('))).length ≥ 2 := by
      omega
    rw [if_neg hlt]
  · decide

/-- C5 witness: the payload `"125"` contains no parenthesis, so the split
yields one part and the returned pair is `(-0.0, 'UNK')`. -/
theorem c5_witness :
    (pySplitChar ')' ((cleanValue "125").data.filter (· ≠ '('))).length = 1 ∧
    send_snmp_command (fun _ => some "125") upsApcStd "mib_time_on_battery" =
      some (.timePair (pyRound ((-1 : ℚ) / 60 / 60) 2) "UNK") ∧
    pyRound ((-1 : ℚ) / 60 / 60) 2 = 0 :=
  ⟨by decide, c5_single_part_split_defaults "125" (by decide)⟩

/-- C6: counterexample.  An eaton_pw batch `[output_voltage, output_current,
ups_name]` in which the voltage read succeeds (110.0) and the current read
fails (`None`) produces no batch result at all: the post-loop output-current
correction multiplies `None` and raises `TypeError` (modelled by
`Option.none`), so the claimed result containing A and B does not exist. -/
theorem c6_counterexample :
    send_snmp_command fetchEatonCurrentFail upsEatonStd "mib_output_voltage" =
      some (.float 110) ∧
    send_snmp_command fetchEatonCurrentFail upsEatonStd "mib_output_current" =
      some PyVal.pynone ∧
    read_ups_list_items fetchEatonCurrentFail
      ["mib_output_voltage", "mib_output_current", "mib_ups_name"] upsEatonStd =
      Option.none := by
  decide

/-- C7: for every command name not present in the session family's registry,
a single-command read returns the sentinel "no data" reading (the string
`'No data'`), and inside a batch the loop continues past it to the remaining
commands — the sentinel is truthy, so the fail-fast break is not taken and
the batch-level `valid` flag is untouched. -/
theorem c7_unsupported_command (fetch : String → Option String) (ups : UpsItem) (cmd : String)
    (hresp : ups.responsive = true)
    (hcmd : alookup cmd (all_mib_cmds ups.ups_type) = Option.none) :
    send_snmp_command fetch ups cmd = some (.str "No data") ∧
    ∀ rest acc, batchLoop fetch (cmd :: rest) ups acc =
      batchLoop fetch rest ups
        { acc with entries := dictInsert acc.entries cmd (.str "No data") } := by
  have hsend : send_snmp_command fetch ups cmd = some (.str "No data") := by
    unfold send_snmp_command
    rw [hresp, hcmd]
    rfl
  have hinfo : cmd ≠ "mib_ups_info" := by
    intro he
    subst he
    cases ht : ups.ups_type <;> rw [ht] at hcmd <;> exact absurd hcmd (by decide)
  refine ⟨hsend, fun rest acc => ?_⟩
  rw [batchLoop_cont fetch ups cmd rest acc (.str "No data") hsend (by decide)
    (fun he => absurd he hinfo)]
  rw [show upsAfterCmd ups cmd (.str "No data") = ups by
        unfold upsAfterCmd
        rw [if_neg (by exact fun hc => hinfo hc.1)]]
  rw [show accAfterCmd ups { acc with entries := dictInsert acc.entries cmd (.str "No data") }
        cmd (.str "No data") =
      { acc with entries := dictInsert acc.entries cmd (.str "No data") } by
        unfold accAfterCmd
        rw [if_neg hinfo]]

/-- C7 witness: `mib_bogus` is in neither registry; on the responsive apc
session it reads as `'No data'` and a one-command batch continues past it. -/
theorem c7_witness :
    send_snmp_command (fun _ => Option.none) upsApcStd "mib_bogus" =
      some (.str "No data") ∧
    batchLoop (fun _ => Option.none) ["mib_bogus"] upsApcStd (initBatch upsApcStd) =
      batchLoop (fun _ => Option.none) [] upsApcStd
        { initBatch upsApcStd with
          entries := dictInsert (initBatch upsApcStd).entries "mib_bogus" (.str "No data") } :=
  ⟨(c7_unsupported_command (fun _ => Option.none) upsApcStd "mib_bogus" rfl (by decide)).1,
   (c7_unsupported_command (fun _ => Option.none) upsApcStd "mib_bogus" rfl (by decide)).2
     [] (initBatch upsApcStd)⟩

/-- C10: a bit string containing no `'1'` characters (the empty string
included) decodes to the empty string under every decode key, and because
the batch loop tests each stored reading for truthiness, the empty string is
treated as a failed read: the batch is marked invalid and the loop breaks,
so every remaining command of the batch is skipped. -/
theorem c10_zero_bits_abort_batch (value : String) (h : '1' ∉ value.data) :
    (∀ key : List String, bit_str_decoder value key = some "") ∧
    ∀ (fetch : String → Option String) (ups : UpsItem) (rest : List String)
      (acc : BatchResult),
      ups.ups_type = .apc_ap96xx → ups.responsive = true →
      fetch "iso.3.6.1.4.1.318.1.1.1.11.1.1.0" = some value →
      batchLoop fetch ("mib_system_status" :: rest) ups acc =
        some { acc with
               entries := dictInsert acc.entries "mib_system_status" (PyVal.str ""),
               valid := false } := by
  have hdec : ∀ key : List String, bit_str_decoder value key = some "" := by
    intro key
    exact bitDecodeAux_no_ones key value.data 0 ""
      (fun c hc he => h (he ▸ hc))
  refine ⟨hdec, fun fetch ups rest acc htype hresp hf => ?_⟩
  have hclean : '1' ∉ (cleanValue value).data := fun hc => h (mem_of_mem_cleanValue hc)
  have hdecc : bit_str_decoder (cleanValue value) apc_system_status_decoder = some "" :=
    bitDecodeAux_no_ones _ _ 0 "" (fun c hc he => hclean (he ▸ hc))
  have hsend : send_snmp_command fetch ups "mib_system_status" = some (PyVal.str "") := by
    unfold send_snmp_command
    rw [hresp, htype]
    show (match fetch "iso.3.6.1.4.1.318.1.1.1.11.1.1.0" with
          | Option.none => some PyVal.pynone
          | some raw =>
            (bit_str_decoder (cleanValue raw) apc_system_status_decoder).map PyVal.str) =
      some (PyVal.str "")
    rw [hf]
    show (bit_str_decoder (cleanValue value) apc_system_status_decoder).map PyVal.str =
      some (PyVal.str "")
    rw [hdecc]
    rfl
  exact batchLoop_break fetch ups "mib_system_status" rest acc (PyVal.str "") hsend rfl

/-- C10 witness: the all-zero status string `"0000"` decodes to `""` and
aborts a two-command batch before its second command. -/
theorem c10_witness :
    bit_str_decoder "0000" apc_system_status_decoder = some "" ∧
    batchLoop
      (fun oid => if oid = "iso.3.6.1.4.1.318.1.1.1.11.1.1.0" then some "0000" else Option.none)
      ["mib_system_status", "mib_ups_name"] upsApcStd (initBatch upsApcStd) =
      some { initBatch upsApcStd with
             entries :=
               dictInsert (initBatch upsApcStd).entries "mib_system_status" (PyVal.str ""),
             valid := false } :=
  ⟨(c10_zero_bits_abort_batch "0000" (by decide)).1 apc_system_status_decoder,
   (c10_zero_bits_abort_batch "0000" (by decide)).2
     (fun oid => if oid = "iso.3.6.1.4.1.318.1.1.1.11.1.1.0" then some "0000" else Option.none)
     upsApcStd ["mib_ups_name"] (initBatch upsApcStd) rfl rfl (by decide)⟩

/-- C6 (amended): for every batch `[A, B, C]` of three distinct command
names (distinct also from the seven batch metadata keys, which share the
result dict in the source), if A's read succeeds (truthy) and B's read —
performed on the session state left by A, since a successful `mib_ups_info`
read updates the cached NMC model — fails (falsy), then the batch result
contains exactly the entries for A and B, never C, and the batch-level
`valid` flag is false.  Excluded, as forced by the counterexample: an
eaton_pw batch whose A and B are exactly the output-voltage and
output-current commands, where the post-batch current correction is applied
to the failed reading and can raise `TypeError`. -/
theorem c6_batch_fail_fast (fetch : String → Option String) (ups : UpsItem)
    (a b c : String) (va vb : PyVal)
    (ha : send_snmp_command fetch ups a = some va)
    (hta : pyTruthy va = true)
    (hb : send_snmp_command fetch (upsAfterCmd ups a va) b = some vb)
    (htb : pyTruthy vb = false)
    (hab : a ≠ b) (hca : c ≠ a) (hcb : c ≠ b)
    (_hmeta : a ∉ batchMetaKeys ∧ b ∉ batchMetaKeys ∧ c ∉ batchMetaKeys)
    (hcorr : ¬ (ups.ups_type = .eaton_pw ∧
      ((a = "mib_output_current" ∧ b = "mib_output_voltage") ∨
       (a = "mib_output_voltage" ∧ b = "mib_output_current")))) :
    ∃ r, read_ups_list_items fetch [a, b, c] ups = some r ∧
      r.valid = false ∧ r.entries = [(a, va), (b, vb)] ∧
      alookup c r.entries = Option.none := by
  have hstr : a = "mib_ups_info" → ups.ups_type = .apc_ap96xx → va.isStr = true := by
    intro h1 _
    rcases send_info_shape fetch ups va (h1 ▸ ha) with h2 | h2
    · rw [h2] at hta; cases hta
    · exact h2
  have e1 := batchLoop_cont fetch ups a [b, c] (initBatch ups) va ha hta hstr
  obtain ⟨r0, e2, hval, hent'⟩ := batchLoop_break_exists fetch (upsAfterCmd ups a va) b [c]
    (accAfterCmd ups { initBatch ups with
      entries := dictInsert (initBatch ups).entries a va } a va) vb hb htb
  have hbatch : batchLoop fetch [a, b, c] ups (initBatch ups) = some r0 := e1.trans e2
  have hent : r0.entries = [(a, va), (b, vb)] := by
    rw [hent', accAfterCmd_entries]
    dsimp only [initBatch]
    simp [dictInsert, alookup, hab]
  refine ⟨r0, ?_, hval, hent, ?_⟩
  · unfold read_ups_list_items
    rw [hbatch]
    dsimp only
    rcases htype : ups.ups_type with _ | _
    · rw [if_neg (by decide)]
    · rw [if_pos rfl, hent]
      by_cases hac : a = "mib_output_current"
      · have hav : a ≠ "mib_output_voltage" := by rw [hac]; decide
        have hbv : b ≠ "mib_output_voltage" := fun hx => hcorr ⟨htype, Or.inl ⟨hac, hx⟩⟩
        have hcur : alookup "mib_output_current" [(a, va), (b, vb)] = some va := by
          simp [alookup, hac]
        have hvolt : alookup "mib_output_voltage" [(a, va), (b, vb)] = Option.none := by
          simp [alookup, hav, hbv]
        rw [hcur, hvolt]
      · by_cases hbc : b = "mib_output_current"
        · have hav : a ≠ "mib_output_voltage" := fun hx => hcorr ⟨htype, Or.inr ⟨hx, hbc⟩⟩
          have hbv : b ≠ "mib_output_voltage" := by rw [hbc]; decide
          have hcur : alookup "mib_output_current" [(a, va), (b, vb)] = some vb := by
            simp [alookup, hac, hbc]
          have hvolt : alookup "mib_output_voltage" [(a, va), (b, vb)] = Option.none := by
            simp [alookup, hav, hbv]
          rw [hcur, hvolt]
        · have hcur : alookup "mib_output_current" [(a, va), (b, vb)] = Option.none := by
            simp [alookup, hac, hbc]
          rw [hcur]
  · rw [hent]
    simp [alookup, Ne.symm hca, Ne.symm hcb]

/-- C6 witness: on a responsive apc session, the batch
`[ups_name, battery_capacity, output_load]` where the name read succeeds and
the capacity query fails yields entries for the first two commands only,
with the batch marked invalid. -/
theorem c6_witness :
    pyTruthy (PyVal.str "MyUPS") = true ∧ pyTruthy PyVal.pynone = false ∧
    ∃ r, read_ups_list_items fetchNameOnly
        ["mib_ups_name", "mib_battery_capacity", "mib_output_load"] upsApcStd = some r ∧
      r.valid = false ∧
      r.entries = [("mib_ups_name", PyVal.str "MyUPS"),
                   ("mib_battery_capacity", PyVal.pynone)] ∧
      alookup "mib_output_load" r.entries = Option.none :=
  ⟨by decide, by decide,
   c6_batch_fail_fast fetchNameOnly upsApcStd
     "mib_ups_name" "mib_battery_capacity" "mib_output_load"
     (PyVal.str "MyUPS") PyVal.pynone
     (by decide) (by decide) (by decide) (by decide)
     (by decide) (by decide) (by decide)
     ⟨by decide, by decide, by decide⟩ (by decide)⟩

/-- C8: after threshold-parameter loading, every effective `ThresholdSpec`
is ordered consistently with the parameter's polarity (read off the default
crit/warn ordering: strictly `crit > warn` for higher-is-worse parameters,
strictly `crit < warn` for lower-is-worse ones) and has `crit ≥ limit` and
`warn ≥ limit`; any configured `(crit, warn)` pair violating these is
silently replaced by the built-in defaults for that parameter.  The loading
function is total — no input raises. -/
theorem c8_threshold_invariants (name : String) (d : ThresholdSpec) (cfg : Option (ℤ × ℤ))
    (hd : daemon_param_defaults_threshold name = some d) :
    ((d.warn < d.crit → (loadThresholdParam d cfg).warn < (loadThresholdParam d cfg).crit) ∧
     (d.crit < d.warn → (loadThresholdParam d cfg).crit < (loadThresholdParam d cfg).warn) ∧
     (loadThresholdParam d cfg).limit ≤ (loadThresholdParam d cfg).crit ∧
     (loadThresholdParam d cfg).limit ≤ (loadThresholdParam d cfg).warn) ∧
    ∀ cc ww, cfg = some (cc, ww) →
      ¬ ((d.warn < d.crit → ww < cc) ∧ (d.crit < d.warn → cc < ww) ∧
         d.limit ≤ cc ∧ d.limit ≤ ww) →
      loadThresholdParam d cfg = d := by
  have hds : d = ⟨5, 10, 4⟩ ∨ d = ⟨5, 3, 1⟩ ∨ d = ⟨90, 80, 10⟩ ∨ d = ⟨10, 50, 5⟩ := by
    unfold daemon_param_defaults_threshold at hd
    split_ifs at hd <;> first
      | exact Option.noConfusion hd
      | (injection hd with hd
         first
           | exact Or.inl hd.symm
           | exact Or.inr (Or.inl hd.symm)
           | exact Or.inr (Or.inr (Or.inl hd.symm))
           | exact Or.inr (Or.inr (Or.inr hd.symm)))
  clear hd
  rcases hds with rfl | rfl | rfl | rfl <;> rcases cfg with _ | ⟨c, w⟩
  all_goals first
    | exact ⟨by decide, fun cc ww hcw => absurd hcw (by simp)⟩
    | (constructor
       · unfold loadThresholdParam checkThresholdParam
         dsimp only
         split_ifs
         all_goals
           try simp only [Bool.or_eq_true, Bool.or_eq_false_iff, decide_eq_true_eq,
             decide_eq_false_iff_not, Bool.not_eq_true, not_or] at *
         all_goals omega
       · intro cc ww hcw hviol
         injection hcw with hcw
         injection hcw with h1 h2
         subst h1; subst h2
         unfold loadThresholdParam checkThresholdParam
         dsimp only at hviol ⊢
         split_ifs
         all_goals first
           | rfl
           | (exfalso
              try simp only [Bool.or_eq_true, Bool.or_eq_false_iff, decide_eq_true_eq,
                decide_eq_false_iff_not, Bool.not_eq_true, not_or] at *
              omega))

/-- C8 witness: the lower-is-worse battery-capacity parameter (defaults
`crit 10, warn 50, limit 5`) with a configured `crit 3 < limit` is reset to
its defaults, which satisfy the invariants. -/
theorem c8_witness :
    daemon_param_defaults_threshold "threshold_battery_capacity" = some ⟨10, 50, 5⟩ ∧
    loadThresholdParam ⟨10, 50, 5⟩ (some (3, 7)) = ⟨10, 50, 5⟩ ∧
    (loadThresholdParam ⟨10, 50, 5⟩ (some (3, 7))).crit <
      (loadThresholdParam ⟨10, 50, 5⟩ (some (3, 7))).warn :=
  ⟨by decide,
   (c8_threshold_invariants "threshold_battery_capacity" ⟨10, 50, 5⟩ (some (3, 7))
       (by decide)).2 3 7 rfl (by decide),
   (c8_threshold_invariants "threshold_battery_capacity" ⟨10, 50, 5⟩ (some (3, 7))
       (by decide)).1.2.1 (by decide)⟩

/-- C9: for the eaton_pw family the decoder (`send_snmp_command`) returns
the raw-scaled output current 10.0, and the batch-read caller
(`read_ups_list_items`) replaces it with
`round((230 / voltage) * current, 1)`, which at voltage 110 and current 10.0
is exactly 20.9. -/
theorem c9_output_current_correction :
    send_snmp_command fetchEaton110 upsEatonStd "mib_output_current" =
      some (.float 10) ∧
    (read_ups_list_items fetchEaton110 ["mib_output_voltage", "mib_output_current"]
        upsEatonStd).map (fun r => (r.valid, alookup "mib_output_current" r.entries)) =
      some (true, some (.float (eatonCurrentCorrection 110 10))) ∧
    eatonCurrentCorrection 110 10 = pyRound ((230 / 110) * 10) 1 ∧
    eatonCurrentCorrection 110 10 = 209 / 10 := by
  decide

end UpsModule
